import Mathlib

/-!
Verification development for the DirectML super-resolution upscaler
(Samples/DirectMLSuperResolution/DirectMLSuperResolution.h, which inlines the
corresponding .cpp translation unit).  The GPU-facing plumbing (D3D12 resource
creation, command lists, uploads) is treated at its interface boundary; the
numeric and data-shaping logic is embedded faithfully below.  All 32-bit
unsigned arithmetic of the source is modelled on Nat with explicit reduction
modulo 4294967296 (2 to the power 32) at every operation where the C++ code
computes in uint32_t; since reduction mod m is a ring homomorphism, a chain of
uint32 additions and multiplications equals the mathematical value of the whole
expression reduced once, which is how the index expressions are written here.
-/

/-- TensorLayout from the header: Default is channel-major NCHW, NHWC is
channel-minor.  Source lines 21-25. -/
inductive TensorLayout where
  | Default : TensorLayout
  | NHWC : TensorLayout
deriving DecidableEq

/-- Four uint32 values, standing for the uint32_t[4] arrays (sizes, strides)
passed around by the source.  d0 d1 d2 d3 are indices 0..3, i.e. N C H W for a
shape. -/
structure U32x4 where
  d0 : Nat
  d1 : Nat
  d2 : Nat
  d3 : Nat
deriving DecidableEq

/-- Upscaler::GetStrides, source lines 564-585.  All multiplications are
uint32_t multiplications, hence the reduction mod 2^32; entries that are copied
or constant are exact.  Pure function of (sizes, layout), total. -/
def getStrides (sizes : U32x4) (layout : TensorLayout) : U32x4 :=
  match layout with
  | TensorLayout.NHWC =>
      { d0 := sizes.d1 * sizes.d2 * sizes.d3 % 4294967296
        d1 := 1
        d2 := sizes.d1 * sizes.d3 % 4294967296
        d3 := sizes.d1 }
  | TensorLayout.Default =>
      { d0 := sizes.d1 * sizes.d2 * sizes.d3 % 4294967296
        d1 := sizes.d2 * sizes.d3 % 4294967296
        d2 := sizes.d3
        d3 := 1 }

/-- Modelled from the spec: the element count implied by (sizes, strides) as
used by the external platform helper DMLCalcBufferTensorSize, which the source
calls at line 594 and which is not part of this repository.  The spec defines
it as the maximum linear element index plus one, i.e. the sum over the four
dimensions of (size - 1) * stride, plus one. -/
def tensorBufferElemCount (sizes strides : U32x4) : Nat :=
  (sizes.d0 - 1) * strides.d0 + (sizes.d1 - 1) * strides.d1 +
    (sizes.d2 - 1) * strides.d2 + (sizes.d3 - 1) * strides.d3 + 1

/-- DivUp from the anonymous namespace, source lines 191-195: divide and round
up, written (a + b - 1) / b on UINT.  The uint32 evaluation first wraps a + b,
then subtracts 1 with wraparound, then divides.  Division by zero is undefined
behaviour in C++ and is modelled by the Nat convention x / 0 = 0. -/
def DivUp (a b : Nat) : Nat :=
  ((a + b) % 4294967296 + 4294967295) % 4294967296 / b

/-- Thread-group grid of the image-to-tensor compute dispatch in
Upscaler::Render, source line 258: Dispatch(DivUp(width, 32), DivUp(height, 16), 1)
on the stored source texture dimensions. -/
def renderComputeDispatch (srcWidth srcHeight : Nat) : Nat × Nat × Nat :=
  (DivUp srcWidth 32, DivUp srcHeight 16, 1)

/-- Output-pass geometry of Upscaler::Render: the viewport, the scissor
rectangle and the 32-bit-constant block of the tensor-to-image pass.  The
viewport dimensions are FLOAT casts of the uint32 values assigned to the
scissor fields; the pre-cast integer values are recorded here. -/
structure TensorToImagePass where
  viewportWidth : Nat
  viewportHeight : Nat
  scissorRight : Nat
  scissorBottom : Nat
  cbWidth : Nat
  cbHeight : Nat
deriving DecidableEq

/-- Tensor-to-image pass setup from Upscaler::Render, source lines 286-307:
texScissor.bottom = m_srcTextureHeight * 2, texScissor.right =
m_srcTextureWidth * 2 (the viewport takes the same two values), and the
ImageLayoutCB holds m_srcTextureHeight * 2 and m_srcTextureWidth * 2.  The
factor two is a literal in the source; nothing else enters the computation. -/
def renderTensorToImagePass (srcWidth srcHeight : Nat) : TensorToImagePass :=
  { viewportWidth := srcWidth * 2 % 4294967296
    viewportHeight := srcHeight * 2 % 4294967296
    scissorRight := srcWidth * 2 % 4294967296
    scissorBottom := srcHeight * 2 % 4294967296
    cbWidth := srcWidth * 2 % 4294967296
    cbHeight := srcHeight * 2 % 4294967296 }

section WeightPreprocessor

variable {α : Type} {β : Type} {κ : Type}

/-- Lookup in the WeightMapType (std::map from layer name to weight vector,
declared by the external LoadWeights.h).  Layer names are modelled by an
abstract type with decidable equality; weight scalars by an abstract type. -/
def mapFind [DecidableEq κ] (weights : List (κ × List α)) (k : κ) : Option (List α) :=
  match weights with
  | [] => none
  | (k2, v) :: rest => if k = k2 then some v else mapFind rest k

/-- Semantics of std::map::operator[] as used at source lines 497-502: a
missing key value-initializes the mapped vector, so the read yields an empty
weight vector rather than an error. -/
def mapGetD [DecidableEq κ] (weights : List (κ × List α)) (k : κ) : List α :=
  (mapFind weights k).getD []

/-- Scalar read inside the filter loops of CreateWeightTensors, source lines
525-527 and 538-540: filterWeights[idx] * scaleWeights[n] when scale/shift
fusion is on, plain filterWeights[idx] otherwise.  std::vector::operator[]
performs no bounds check (out-of-range reads are undefined behaviour); an
out-of-range read is modelled as yielding the arbitrary value dflt.
Multiplication of the float weights is the abstract mul. -/
def weightAt (mul : α → α → α) (dflt : α) (filterWeights scaleWeights : List α)
    (useScaleShift : Bool) (n idx : Nat) : α :=
  if useScaleShift then mul (filterWeights.getD idx dflt) (scaleWeights.getD n dflt)
  else filterWeights.getD idx dflt

/-- Body of one iteration of the outer n loop of CreateWeightTensors, source
lines 513-543: under NHWC, nested loops over h, w, c emit the value at
uint32 index w + h*W + c*H*W + n*C*H*W; under Default, a single loop over
i < C*H*W (a uint32 product) emits the value at uint32 index n*C*H*W + i.
Float16Compressor::compress (external Float16Compressor.h) is the abstract
compress. -/
def filterBlock (mul : α → α → α) (compress : α → β) (dflt : α)
    (filterWeights scaleWeights : List α) (useScaleShift : Bool)
    (C H W : Nat) (layout : TensorLayout) (n : Nat) : List β :=
  match layout with
  | TensorLayout.NHWC =>
      (List.range H).flatMap fun h =>
        (List.range W).flatMap fun w =>
          (List.range C).map fun c =>
            compress (weightAt mul dflt filterWeights scaleWeights useScaleShift n
              ((w + h * W + c * H * W + n * C * H * W) % 4294967296))
  | TensorLayout.Default =>
      (List.range (C * H * W % 4294967296)).map fun i =>
        compress (weightAt mul dflt filterWeights scaleWeights useScaleShift n
          ((n * C * H * W + i) % 4294967296))

/-- The filterWeightsFP16 vector built by CreateWeightTensors, source lines
505-543: the outer loop over n < N concatenates the per-n blocks. -/
def buildFilterFP16 (mul : α → α → α) (compress : α → β) (dflt : α)
    (filterWeights scaleWeights : List α) (useScaleShift : Bool)
    (N C H W : Nat) (layout : TensorLayout) : List β :=
  (List.range N).flatMap
    (filterBlock mul compress dflt filterWeights scaleWeights useScaleShift C H W layout)

/-- The biasWeightsFP16 vector built by CreateWeightTensors, source lines
545-549: inside the same n loop, one value compress(shiftWeights[n]) is pushed
per output channel, and only when scale/shift fusion is on (the initial bias is
zero, so the fused bias is exactly the shift). -/
def buildBiasFP16 (compress : α → β) (dflt : α) (shiftWeights : List α)
    (useScaleShift : Bool) (N : Nat) : List β :=
  (List.range N).flatMap fun n =>
    if useScaleShift then [compress (shiftWeights.getD n dflt)] else []

/-- Upscaler::CreateWeightTensors, source lines 460-562, restricted to the
weight data it computes and uploads: the pair of the FP16 filter buffer
contents and the optional FP16 bias buffer contents.  useScaleShift is false
exactly when scaleLayerName is null (line 475); when it is false no bias
resource is written through the out parameter and no bias data is uploaded,
modelled as the none result.  The scale and shift vectors are read from the
map only when fusion is on, matching lines 499-503 (a null shiftLayerName
under fusion would construct std::string from a null pointer, undefined
behaviour, modelled as the empty vector; the assertion at line 477 is modelled
separately as scaleShiftPre). -/
def createWeightTensors [DecidableEq κ] (mul : α → α → α) (compress : α → β) (dflt : α)
    (weights : List (κ × List α)) (convLayerName : κ)
    (scaleLayerName shiftLayerName : Option κ) (layout : TensorLayout)
    (N C H W : Nat) : List β × Option (List β) :=
  let useScaleShift : Bool := scaleLayerName.isSome
  let filterWeights := mapGetD weights convLayerName
  let scaleWeights := match scaleLayerName with
    | some s => mapGetD weights s
    | none => []
  let shiftWeights := if useScaleShift then
      (match shiftLayerName with
        | some s => mapGetD weights s
        | none => []) else []
  (buildFilterFP16 mul compress dflt filterWeights scaleWeights useScaleShift N C H W layout,
    if useScaleShift then some (buildBiasFP16 compress dflt shiftWeights useScaleShift N)
    else none)

/-- Implicit precondition documented by the assertion at source line 477:
whenever scaleLayerName is null, shiftLayerName must be null as well (the two
are provided, or omitted, together). -/
def scaleShiftPre (scaleLayerName shiftLayerName : Option κ) : Prop :=
  scaleLayerName = none → shiftLayerName = none

end WeightPreprocessor

/-- Device-dependent objects owned by the Upscaler, one Boolean per owned
member recording whether the member currently holds a live reference
(declarations at source lines 67-114).  The two fixed arrays of seven
per-layer buffers are indexed by Fin 7 (c_numConvLayers = 7).  The member
m_dmlOpInit models m_dmlOpInitializer. -/
structure UpscalerDeviceState where
  m_SRVDescriptorHeap : Bool
  m_RTVDescriptorHeap : Bool
  m_tensorRenderRootSignature : Bool
  m_tensorRenderPipelineState : Bool
  m_videoTexture : Bool
  m_finalResultTexture : Bool
  m_vertexBuffer : Bool
  m_indexBuffer : Bool
  m_computePSO : Bool
  m_computeRootSignature : Bool
  m_dmlDevice : Bool
  m_dmlCommandRecorder : Bool
  m_dmlDescriptorHeap : Bool
  m_modelInput : Bool
  m_modelOutput : Bool
  m_modelConvFilterWeights : Fin 7 → Bool
  m_modelConvBiasWeights : Fin 7 → Bool
  m_modelPersistentResource : Bool
  m_modelTemporaryResource : Bool
  m_dmlGraph : Bool
  m_dmlBindingTable : Bool
  m_dmlOpInit : Bool

/-- Upscaler::OnDeviceLost, source lines 608-640, transcribed member by
member: every Reset()/reset() call drops the corresponding reference (the loop
at lines 634-638 clears both seven-element arrays).  m_dmlBindingTable does
not appear in the body of OnDeviceLost, so that member is left untouched. -/
def onDeviceLost (s : UpscalerDeviceState) : UpscalerDeviceState :=
  { m_tensorRenderPipelineState := false
    m_tensorRenderRootSignature := false
    m_videoTexture := false
    m_finalResultTexture := false
    m_indexBuffer := false
    m_vertexBuffer := false
    m_SRVDescriptorHeap := false
    m_RTVDescriptorHeap := false
    m_computePSO := false
    m_computeRootSignature := false
    m_dmlDevice := false
    m_dmlCommandRecorder := false
    m_modelInput := false
    m_modelOutput := false
    m_dmlOpInit := false
    m_dmlGraph := false
    m_modelTemporaryResource := false
    m_modelPersistentResource := false
    m_modelConvFilterWeights := fun _ => false
    m_modelConvBiasWeights := fun _ => false
    m_dmlDescriptorHeap := false
    m_dmlBindingTable := s.m_dmlBindingTable }

/-- A fully built pipeline: every owned device-dependent member holds a live
reference. -/
def fullDeviceState : UpscalerDeviceState :=
  { m_SRVDescriptorHeap := true
    m_RTVDescriptorHeap := true
    m_tensorRenderRootSignature := true
    m_tensorRenderPipelineState := true
    m_videoTexture := true
    m_finalResultTexture := true
    m_vertexBuffer := true
    m_indexBuffer := true
    m_computePSO := true
    m_computeRootSignature := true
    m_dmlDevice := true
    m_dmlCommandRecorder := true
    m_dmlDescriptorHeap := true
    m_modelInput := true
    m_modelOutput := true
    m_modelConvFilterWeights := fun _ => true
    m_modelConvBiasWeights := fun _ => true
    m_modelPersistentResource := true
    m_modelTemporaryResource := true
    m_dmlGraph := true
    m_dmlBindingTable := true
    m_dmlOpInit := true }

/-- Observable steps of tearing an Upscaler down. -/
inductive TeardownEvent where
  | waitForGpu : TeardownEvent
  | destroyMembers : TeardownEvent
  | freeAllocation : TeardownEvent
deriving DecidableEq

/-- Trace of the destructor, source lines 212-218: if m_deviceResources is
set, WaitForGpu() blocks until outstanding GPU work completes, then the member
destructors release the owned resources. -/
def upscalerDestructorEvents (hasDeviceResources : Bool) : List TeardownEvent :=
  (if hasDeviceResources then [TeardownEvent.waitForGpu] else []) ++
    [TeardownEvent.destroyMembers]

/-- Trace of DeleteUpscaler, source lines 656-660: the body is a
delete-expression applied to the parameter pUPScaler, whose static type is
pointer to void.  A delete-expression whose operand does not have the type of
the object deleted (in particular pointer to void) never invokes the Upscaler
destructor; per the C++ standard the behaviour is undefined, and the code MSVC
emits for it deallocates the storage without running the destructor or the
member destructors.  The trace therefore contains only the deallocation. -/
def deleteUpscalerEvents : List TeardownEvent :=
  [TeardownEvent.freeAllocation]

/-! Helper lemmas about flatMap, ranges and permutations, used to reason about
the nested emission loops of CreateWeightTensors. -/

theorem flatMap_nil_const {γ δ : Type} (l : List γ) :
    (l.flatMap fun _ => ([] : List δ)) = [] := by
  induction l with
  | nil => rfl
  | cons a l ih => simp [ih]

theorem flatMap_congr {γ δ : Type} (l : List γ) (f g : γ → List δ)
    (h : ∀ a ∈ l, f a = g a) : l.flatMap f = l.flatMap g := by
  induction l with
  | nil => rfl
  | cons a l ih =>
    simp only [List.flatMap_cons, h a (by simp)]
    rw [ih (fun x hx => h x (by simp [hx]))]

theorem flatMap_append_perm {γ δ : Type} (l : List γ) (p q : γ → List δ) :
    List.Perm (l.flatMap fun a => p a ++ q a) (l.flatMap p ++ l.flatMap q) := by
  induction l with
  | nil => simp
  | cons a l ih =>
    simp only [List.flatMap_cons]
    refine (List.Perm.append_left (p a ++ q a) ih).trans ?_
    rw [List.append_assoc, List.append_assoc]
    refine List.Perm.append_left (p a) ?_
    rw [← List.append_assoc, ← List.append_assoc]
    exact List.Perm.append List.perm_append_comm (List.Perm.refl _)

theorem flatMap_flatMap_comm_perm {γ δ ε : Type} (la : List γ) (lb : List δ)
    (f : γ → δ → List ε) :
    List.Perm (la.flatMap fun a => lb.flatMap fun b => f a b)
      (lb.flatMap fun b => la.flatMap fun a => f a b) := by
  induction la with
  | nil => simp [flatMap_nil_const]
  | cons a la ih =>
    simp only [List.flatMap_cons]
    refine List.Perm.trans ?_
      (flatMap_append_perm lb (f a) (fun b => la.flatMap fun x => f x b)).symm
    exact List.Perm.append_left _ ih

theorem map_eq_flatMap_singleton {γ δ : Type} (l : List γ) (g : γ → δ) :
    l.map g = l.flatMap fun a => [g a] := by
  induction l with
  | nil => rfl
  | cons a l ih => simp [ih]

theorem flatMap_map_comm_perm {γ δ ε : Type} (la : List γ) (lb : List δ)
    (f : γ → δ → ε) :
    List.Perm (la.flatMap fun a => lb.map (f a))
      (lb.flatMap fun b => la.map fun a => f a b) := by
  simp only [map_eq_flatMap_singleton]
  exact flatMap_flatMap_comm_perm la lb fun a b => [f a b]

theorem flatMap_perm_congr {γ δ : Type} (l : List γ) (f g : γ → List δ)
    (h : ∀ a ∈ l, List.Perm (f a) (g a)) :
    List.Perm (l.flatMap f) (l.flatMap g) := by
  induction l with
  | nil => exact List.Perm.refl _
  | cons a l ih =>
    simp only [List.flatMap_cons]
    exact List.Perm.append (h a (by simp)) (ih fun x hx => h x (by simp [hx]))

theorem flatMap_length_uniform {γ δ : Type} (l : List γ) (f : γ → List δ) (B : Nat)
    (h : ∀ a ∈ l, (f a).length = B) : (l.flatMap f).length = l.length * B := by
  induction l with
  | nil => simp
  | cons a l ih =>
    simp only [List.flatMap_cons, List.length_append, List.length_cons, h a (by simp),
      ih fun x hx => h x (by simp [hx])]
    ring

theorem flatMap_getElem_uniform {γ δ : Type} (l : List γ) (f : γ → List δ) (B : Nat)
    (h : ∀ a ∈ l, (f a).length = B) (q k : Nat) (hq : q < l.length) (hk : k < B) :
    (l.flatMap f)[q * B + k]? = (f (l.get ⟨q, hq⟩))[k]? := by
  induction l generalizing q with
  | nil => exact absurd hq (Nat.not_lt_zero q)
  | cons a l ih =>
    cases q with
    | zero =>
      simp only [List.flatMap_cons, Nat.zero_mul, Nat.zero_add]
      rw [List.getElem?_append_left (by rw [h a (by simp)]; exact hk)]
      rfl
    | succ q =>
      have hlen : (a :: l).flatMap f = f a ++ l.flatMap f := by
        simp [List.flatMap_cons]
      rw [hlen]
      have hidx : (q + 1) * B + k = (f a).length + (q * B + k) := by
        rw [h a (by simp)]; ring
      rw [hidx, List.getElem?_append_right (Nat.le_add_right _ _), Nat.add_sub_cancel_left]
      exact ih (fun x hx => h x (by simp [hx])) q (Nat.lt_of_succ_lt_succ hq)

theorem range_mul_flatMap (a b : Nat) :
    List.range (a * b) = (List.range a).flatMap fun i => (List.range b).map fun j => i * b + j := by
  induction a with
  | zero => simp
  | succ a ih =>
    rw [List.range_succ, List.flatMap_append, ← ih, Nat.succ_mul, List.range_add]
    simp

theorem range_triple_map {δ : Type} (C H W : Nat) (g : Nat → δ) :
    (List.range (C * H * W)).map g
      = (List.range C).flatMap fun c =>
          (List.range H).flatMap fun h =>
            (List.range W).map fun w => g (c * (H * W) + (h * W + w)) := by
  rw [Nat.mul_assoc, range_mul_flatMap C (H * W), List.map_flatMap]
  refine flatMap_congr _ _ _ fun c _ => ?_
  rw [List.map_map, range_mul_flatMap H W, List.map_flatMap]
  refine flatMap_congr _ _ _ fun h _ => ?_
  rw [List.map_map]
  rfl

theorem flatIndexLt {x X y Y : Nat} (hx : x < X) (hy : y < Y) : x * Y + y < X * Y := by
  have h1 : x * Y + y < (x + 1) * Y := by
    have : (x + 1) * Y = x * Y + Y := by ring
    omega
  exact Nat.lt_of_lt_of_le h1 (Nat.mul_le_mul_right Y hx)

/-! Reduction lemmas for the CreateWeightTensors emission loops. -/

section WeightLemmas

variable {α : Type} {β : Type} {κ : Type}
variable (mul : α → α → α) (compress : α → β) (dflt : α)
variable (fw sw : List α) (uss : Bool)

theorem filterBlock_default_eq (C H W : Nat) (hCHW : C * H * W < 4294967296) (n : Nat) :
    filterBlock mul compress dflt fw sw uss C H W TensorLayout.Default n
      = (List.range (C * H * W)).map fun j =>
          compress (weightAt mul dflt fw sw uss n ((n * C * H * W + j) % 4294967296)) := by
  simp only [filterBlock, Nat.mod_eq_of_lt hCHW]

theorem filterBlock_nhwc_eq (C H W : Nat) (n : Nat) :
    filterBlock mul compress dflt fw sw uss C H W TensorLayout.NHWC n
      = (List.range H).flatMap fun h =>
          (List.range W).flatMap fun w =>
            (List.range C).map fun c =>
              compress (weightAt mul dflt fw sw uss n
                ((n * C * H * W + (c * H * W + (h * W + w))) % 4294967296)) := by
  simp only [filterBlock]
  have hidx : ∀ h w c : Nat,
      w + h * W + c * H * W + n * C * H * W = n * C * H * W + (c * H * W + (h * W + w)) :=
    fun h w c => by ring
  simp only [hidx]

theorem filterBlock_default_triple (C H W : Nat) (hCHW : C * H * W < 4294967296) (n : Nat) :
    filterBlock mul compress dflt fw sw uss C H W TensorLayout.Default n
      = (List.range C).flatMap fun c =>
          (List.range H).flatMap fun h =>
            (List.range W).map fun w =>
              compress (weightAt mul dflt fw sw uss n
                ((n * C * H * W + (c * H * W + (h * W + w))) % 4294967296)) := by
  rw [filterBlock_default_eq mul compress dflt fw sw uss C H W hCHW n, range_triple_map]
  have hidx : ∀ c h w : Nat, c * (H * W) + (h * W + w) = c * H * W + (h * W + w) :=
    fun c h w => by ring
  simp only [hidx]

theorem filterBlock_perm (C H W : Nat) (hCHW : C * H * W < 4294967296) (n : Nat) :
    List.Perm (filterBlock mul compress dflt fw sw uss C H W TensorLayout.NHWC n)
      (filterBlock mul compress dflt fw sw uss C H W TensorLayout.Default n) := by
  rw [filterBlock_nhwc_eq mul compress dflt fw sw uss C H W n,
    filterBlock_default_triple mul compress dflt fw sw uss C H W hCHW n]
  refine List.Perm.trans
    (flatMap_perm_congr _ _ _ fun h _ => flatMap_map_comm_perm (List.range W) (List.range C) _) ?_
  exact flatMap_flatMap_comm_perm (List.range H) (List.range C) _

theorem filterBlock_default_length (C H W : Nat) (hCHW : C * H * W < 4294967296) (n : Nat) :
    (filterBlock mul compress dflt fw sw uss C H W TensorLayout.Default n).length = C * H * W := by
  simp [filterBlock, Nat.mod_eq_of_lt hCHW]

theorem filterBlock_nhwc_length (C H W : Nat) (n : Nat) :
    (filterBlock mul compress dflt fw sw uss C H W TensorLayout.NHWC n).length = H * (W * C) := by
  simp only [filterBlock]
  rw [flatMap_length_uniform _ _ (W * C) ?_]
  · simp
  · intro h _
    rw [flatMap_length_uniform _ _ C (by intro w _; simp)]
    simp

theorem buildFilterFP16_default_length (N C H W : Nat) (hCHW : C * H * W < 4294967296) :
    (buildFilterFP16 mul compress dflt fw sw uss N C H W TensorLayout.Default).length
      = N * (C * H * W) := by
  simp only [buildFilterFP16]
  rw [flatMap_length_uniform _ _ (C * H * W)
    (fun n _ => filterBlock_default_length mul compress dflt fw sw uss C H W hCHW n)]
  simp

theorem buildFilterFP16_nhwc_length (N C H W : Nat) :
    (buildFilterFP16 mul compress dflt fw sw uss N C H W TensorLayout.NHWC).length
      = N * (H * (W * C)) := by
  simp only [buildFilterFP16]
  rw [flatMap_length_uniform _ _ (H * (W * C))
    (fun n _ => filterBlock_nhwc_length mul compress dflt fw sw uss C H W n)]
  simp

theorem buildFilterFP16_perm (N C H W : Nat) (hCHW : C * H * W < 4294967296) :
    List.Perm (buildFilterFP16 mul compress dflt fw sw uss N C H W TensorLayout.NHWC)
      (buildFilterFP16 mul compress dflt fw sw uss N C H W TensorLayout.Default) :=
  flatMap_perm_congr _ _ _
    (fun n _ => filterBlock_perm mul compress dflt fw sw uss C H W hCHW n)

theorem buildFilterFP16_default_getElem (N C H W : Nat) (hCHW : C * H * W < 4294967296)
    {n j : Nat} (hn : n < N) (hj : j < C * H * W) :
    (buildFilterFP16 mul compress dflt fw sw uss N C H W TensorLayout.Default)[n * (C * H * W) + j]?
      = some (compress (weightAt mul dflt fw sw uss n ((n * C * H * W + j) % 4294967296))) := by
  simp only [buildFilterFP16]
  rw [flatMap_getElem_uniform _ _ (C * H * W)
    (fun m _ => filterBlock_default_length mul compress dflt fw sw uss C H W hCHW m)
    n j (by simpa using hn) hj]
  simp only [List.get_eq_getElem, List.getElem_range]
  rw [filterBlock_default_eq mul compress dflt fw sw uss C H W hCHW n]
  rw [List.getElem?_map, List.getElem?_range hj]
  rfl

theorem buildFilterFP16_nhwc_getElem (N C H W : Nat)
    {n h w c : Nat} (hn : n < N) (hh : h < H) (hw : w < W) (hc : c < C) :
    (buildFilterFP16 mul compress dflt fw sw uss N C H W
        TensorLayout.NHWC)[n * (H * (W * C)) + (h * (W * C) + (w * C + c))]?
      = some (compress (weightAt mul dflt fw sw uss n
          ((n * C * H * W + (c * H * W + (h * W + w))) % 4294967296))) := by
  simp only [buildFilterFP16]
  rw [flatMap_getElem_uniform _ _ (H * (W * C))
    (fun m _ => filterBlock_nhwc_length mul compress dflt fw sw uss C H W m)
    n (h * (W * C) + (w * C + c)) (by simpa using hn)
    (flatIndexLt hh (flatIndexLt hw hc))]
  simp only [List.get_eq_getElem, List.getElem_range]
  rw [filterBlock_nhwc_eq mul compress dflt fw sw uss C H W n]
  rw [flatMap_getElem_uniform _ _ (W * C)
    (fun m _ => by
      rw [flatMap_length_uniform _ _ C (by intro x _; simp)]
      simp)
    h (w * C + c) (by simpa using hh) (flatIndexLt hw hc)]
  simp only [List.get_eq_getElem, List.getElem_range]
  rw [flatMap_getElem_uniform _ _ C (by intro x _; simp) w c (by simpa using hw) hc]
  simp only [List.get_eq_getElem, List.getElem_range]
  rw [List.getElem?_map, List.getElem?_range hc]
  rfl

end WeightLemmas

/-! Unfolding lemmas for createWeightTensors, DivUp and getStrides. -/

section UnfoldingLemmas

variable {α : Type} {β : Type} {κ : Type} [DecidableEq κ]
variable (mul : α → α → α) (compress : α → β) (dflt : α)

theorem mapGetD_of_find (weights : List (κ × List α)) (k : κ) (v : List α)
    (h : mapFind weights k = some v) : mapGetD weights k = v := by
  simp [mapGetD, h]

theorem mapGetD_of_find_none (weights : List (κ × List α)) (k : κ)
    (h : mapFind weights k = none) : mapGetD weights k = [] := by
  simp [mapGetD, h]

theorem createWeightTensors_some_fst (weights : List (κ × List α)) (conv sn tn : κ)
    (layout : TensorLayout) (N C H W : Nat) :
    (createWeightTensors mul compress dflt weights conv (some sn) (some tn) layout N C H W).1
      = buildFilterFP16 mul compress dflt (mapGetD weights conv) (mapGetD weights sn)
          true N C H W layout := rfl

theorem createWeightTensors_some_snd (weights : List (κ × List α)) (conv sn tn : κ)
    (layout : TensorLayout) (N C H W : Nat) :
    (createWeightTensors mul compress dflt weights conv (some sn) (some tn) layout N C H W).2
      = some (buildBiasFP16 compress dflt (mapGetD weights tn) true N) := rfl

theorem createWeightTensors_none_eq (weights : List (κ × List α)) (conv : κ)
    (layout : TensorLayout) (N C H W : Nat) :
    createWeightTensors mul compress dflt weights conv none none layout N C H W
      = (buildFilterFP16 mul compress dflt (mapGetD weights conv) [] false N C H W layout,
          none) := rfl

theorem buildBiasFP16_true (sw : List α) (N : Nat) :
    buildBiasFP16 compress dflt sw true N
      = (List.range N).map fun n => compress (sw.getD n dflt) := by
  rw [map_eq_flatMap_singleton]
  rfl

theorem divUp_spec (a b : Nat) (hb : 0 < b) (hfit : a + b ≤ 4294967296) :
    DivUp a b = (a + b - 1) / b ∧ a ≤ b * DivUp a b ∧ b * DivUp a b < a + b := by
  have harg : ((a + b) % 4294967296 + 4294967295) % 4294967296 = a + b - 1 := by omega
  have heq : DivUp a b = (a + b - 1) / b := by
    unfold DivUp
    rw [harg]
  refine ⟨heq, ?_⟩
  rw [heq]
  have hdm := Nat.div_add_mod (a + b - 1) b
  have hlt : (a + b - 1) % b < b := Nat.mod_lt _ hb
  generalize hq : (a + b - 1) / b = q at hdm ⊢
  generalize hr : (a + b - 1) % b = r at hdm hlt
  generalize hm : b * q = m at hdm ⊢
  omega

theorem getStrides_default_eq (s : U32x4) (h1 : 0 < s.d1)
    (hfit : s.d1 * s.d2 * s.d3 < 4294967296) :
    getStrides s TensorLayout.Default
      = ⟨s.d1 * s.d2 * s.d3, s.d2 * s.d3, s.d3, 1⟩ := by
  have h23 : s.d2 * s.d3 < 4294967296 := by
    refine Nat.lt_of_le_of_lt ?_ hfit
    calc s.d2 * s.d3 = 1 * s.d2 * s.d3 := by ring
    _ ≤ s.d1 * s.d2 * s.d3 := by
        exact Nat.mul_le_mul_right s.d3 (Nat.mul_le_mul_right s.d2 h1)
  simp [getStrides, Nat.mod_eq_of_lt hfit, Nat.mod_eq_of_lt h23]

theorem getStrides_nhwc_eq (s : U32x4) (h2 : 0 < s.d2)
    (hfit : s.d1 * s.d2 * s.d3 < 4294967296) :
    getStrides s TensorLayout.NHWC
      = ⟨s.d1 * s.d2 * s.d3, 1, s.d1 * s.d3, s.d1⟩ := by
  have h13 : s.d1 * s.d3 < 4294967296 := by
    refine Nat.lt_of_le_of_lt ?_ hfit
    exact Nat.mul_le_mul_right s.d3 (Nat.le_mul_of_pos_right s.d1 h2)
  simp [getStrides, Nat.mod_eq_of_lt hfit, Nat.mod_eq_of_lt h13]

end UnfoldingLemmas

/-- General projection of the filter component of createWeightTensors. -/
theorem createWeightTensors_fst {α β κ : Type} [DecidableEq κ]
    (mul : α → α → α) (compress : α → β) (dflt : α)
    (weights : List (κ × List α)) (conv : κ) (sN shN : Option κ)
    (layout : TensorLayout) (N C H W : Nat) :
    (createWeightTensors mul compress dflt weights conv sN shN layout N C H W).1
      = buildFilterFP16 mul compress dflt (mapGetD weights conv)
          (match sN with | some s => mapGetD weights s | none => []) sN.isSome
          N C H W layout := rfl

/-! Claim theorems. -/

/-- Claim C2: GetStrides is a total pure function of (shape, layout); for a 4D
shape (N, C, H, W) whose relevant products fit in uint32 it returns
(C*H*W, H*W, W, 1) under the Default NCHW layout and (C*H*W, 1, C*W, C) under
the NHWC layout. -/
theorem getStrides_spec (N C H W : Nat) (hC : 0 < C) (hH : 0 < H)
    (hfit : C * H * W < 4294967296) :
    getStrides ⟨N, C, H, W⟩ TensorLayout.Default = ⟨C * H * W, H * W, W, 1⟩
    ∧ getStrides ⟨N, C, H, W⟩ TensorLayout.NHWC = ⟨C * H * W, 1, C * W, C⟩ :=
  ⟨getStrides_default_eq ⟨N, C, H, W⟩ hC hfit, getStrides_nhwc_eq ⟨N, C, H, W⟩ hH hfit⟩

/-- Witness for C2 at the concrete shape (2, 3, 4, 5). -/
theorem getStrides_spec_witness :
    (0 < 3 ∧ 0 < 4 ∧ 3 * 4 * 5 < 4294967296)
    ∧ getStrides ⟨2, 3, 4, 5⟩ TensorLayout.Default = ⟨60, 20, 5, 1⟩
    ∧ getStrides ⟨2, 3, 4, 5⟩ TensorLayout.NHWC = ⟨60, 1, 15, 3⟩ :=
  ⟨⟨by decide, by decide, by decide⟩,
    (getStrides_spec 2 3 4 5 (by decide) (by decide) (by decide)).1,
    (getStrides_spec 2 3 4 5 (by decide) (by decide) (by decide)).2⟩

/-- Claim C5, settled as a code bug: OnDeviceLost resets every owned
device-dependent member except m_dmlBindingTable, which keeps whatever
reference it held; so after OnDeviceLost returns on a fully built pipeline
the binding table still holds its reference, contradicting the claim that no
partial device-dependent state survives. -/
theorem onDeviceLost_bindingTable_survives :
    (∀ s : UpscalerDeviceState, (onDeviceLost s).m_dmlBindingTable = s.m_dmlBindingTable)
    ∧ (onDeviceLost fullDeviceState).m_dmlBindingTable = true
    ∧ (onDeviceLost fullDeviceState).m_tensorRenderPipelineState = false
    ∧ (onDeviceLost fullDeviceState).m_tensorRenderRootSignature = false
    ∧ (onDeviceLost fullDeviceState).m_videoTexture = false
    ∧ (onDeviceLost fullDeviceState).m_finalResultTexture = false
    ∧ (onDeviceLost fullDeviceState).m_indexBuffer = false
    ∧ (onDeviceLost fullDeviceState).m_vertexBuffer = false
    ∧ (onDeviceLost fullDeviceState).m_SRVDescriptorHeap = false
    ∧ (onDeviceLost fullDeviceState).m_RTVDescriptorHeap = false
    ∧ (onDeviceLost fullDeviceState).m_computePSO = false
    ∧ (onDeviceLost fullDeviceState).m_computeRootSignature = false
    ∧ (onDeviceLost fullDeviceState).m_dmlDevice = false
    ∧ (onDeviceLost fullDeviceState).m_dmlCommandRecorder = false
    ∧ (onDeviceLost fullDeviceState).m_modelInput = false
    ∧ (onDeviceLost fullDeviceState).m_modelOutput = false
    ∧ (onDeviceLost fullDeviceState).m_dmlOpInit = false
    ∧ (onDeviceLost fullDeviceState).m_dmlGraph = false
    ∧ (onDeviceLost fullDeviceState).m_modelTemporaryResource = false
    ∧ (onDeviceLost fullDeviceState).m_modelPersistentResource = false
    ∧ (onDeviceLost fullDeviceState).m_dmlDescriptorHeap = false
    ∧ (∀ i : Fin 7, (onDeviceLost fullDeviceState).m_modelConvFilterWeights i = false)
    ∧ (∀ i : Fin 7, (onDeviceLost fullDeviceState).m_modelConvBiasWeights i = false) :=
  ⟨fun _ => rfl, rfl, rfl, rfl, rfl, rfl, rfl, rfl, rfl, rfl, rfl, rfl, rfl, rfl, rfl,
    rfl, rfl, rfl, rfl, rfl, rfl, fun _ => rfl, fun _ => rfl⟩

/-- Claim C6, settled as a code bug: the destructor does wait for the GPU
before the members are destroyed, but DeleteUpscaler deletes through a void
pointer, so neither the wait nor the member teardown ever happens on the
DeleteUpscaler path. -/
theorem deleteUpscaler_skips_destructor :
    (TeardownEvent.waitForGpu ∈ upscalerDestructorEvents true)
    ∧ (TeardownEvent.waitForGpu ∉ deleteUpscalerEvents)
    ∧ (TeardownEvent.destroyMembers ∉ deleteUpscalerEvents) := by
  decide

/-- Claim C7: the tensor-to-image pass targets exactly doubled dimensions:
viewport, scissor and constant block all equal twice the stored source size,
with the factor two a fixed literal of Render (no configured scale enters). -/
theorem renderTensorToImagePass_doubles (w h : Nat)
    (hw : 2 * w < 4294967296) (hh : 2 * h < 4294967296) :
    renderTensorToImagePass w h = ⟨2 * w, 2 * h, 2 * w, 2 * h, 2 * w, 2 * h⟩ := by
  have hw2 : w * 2 % 4294967296 = 2 * w := by omega
  have hh2 : h * 2 % 4294967296 = 2 * h := by omega
  simp [renderTensorToImagePass, hw2, hh2]

/-- Witness for C7 at a 320 by 240 source. -/
theorem renderTensorToImagePass_doubles_witness :
    (2 * 320 < 4294967296 ∧ 2 * 240 < 4294967296)
    ∧ renderTensorToImagePass 320 240 = ⟨640, 480, 640, 480, 640, 480⟩ :=
  ⟨⟨by decide, by decide⟩, renderTensorToImagePass_doubles 320 240 (by decide) (by decide)⟩

/-- Claim C9: the image-to-tensor pass dispatches exactly
(DivUp(width, 32), DivUp(height, 16), 1) thread groups, and DivUp computes the
exact ceiling of a / b whenever a + b - 1 fits in uint32: the returned value q
is characterized by a being at most b * q and b * q being below a + b. -/
theorem renderComputeDispatch_ceil (w h : Nat) (hw : 0 < w) (hh : 0 < h)
    (hwfit : w + 31 < 4294967296) (hhfit : h + 15 < 4294967295 + 1) :
    renderComputeDispatch w h = (DivUp w 32, DivUp h 16, 1)
    ∧ (w ≤ 32 * DivUp w 32 ∧ 32 * DivUp w 32 < w + 32)
    ∧ (h ≤ 16 * DivUp h 16 ∧ 16 * DivUp h 16 < h + 16)
    ∧ (∀ a b : Nat, 0 < b → a + b ≤ 4294967296 →
        DivUp a b = (a + b - 1) / b ∧ a ≤ b * DivUp a b ∧ b * DivUp a b < a + b) := by
  refine ⟨rfl, ?_, ?_, fun a b hb hfit => divUp_spec a b hb hfit⟩
  · exact (divUp_spec w 32 (by decide) (by omega)).2
  · exact (divUp_spec h 16 (by decide) (by omega)).2

/-- Witness for C9 at a 33 by 17 source: the grid is 2 by 2 by 1. -/
theorem renderComputeDispatch_ceil_witness :
    (0 < 33 ∧ 0 < 17 ∧ 33 + 31 < 4294967296 ∧ 17 + 15 < 4294967295 + 1)
    ∧ DivUp 33 32 = 2 ∧ DivUp 17 16 = 2
    ∧ (renderComputeDispatch 33 17 = (DivUp 33 32, DivUp 17 16, 1)
        ∧ (33 ≤ 32 * DivUp 33 32 ∧ 32 * DivUp 33 32 < 33 + 32)
        ∧ (17 ≤ 16 * DivUp 17 16 ∧ 16 * DivUp 17 16 < 17 + 16)
        ∧ (∀ a b : Nat, 0 < b → a + b ≤ 4294967296 →
            DivUp a b = (a + b - 1) / b ∧ a ≤ b * DivUp a b ∧ b * DivUp a b < a + b)) :=
  ⟨⟨by decide, by decide, by decide, by decide⟩, by decide, by decide,
    renderComputeDispatch_ceil 33 17 (by decide) (by decide) (by decide) (by decide)⟩

/-- Claim C10: the implicit precondition of CreateWeightTensors requires the
shift name to be absent whenever the scale name is absent (the assertion at
line 477 holds exactly on the precondition), and with a null scale name the
shift name is never consulted: the result is independent of it. -/
theorem createWeightTensors_scaleShift_pre {α β κ : Type} [DecidableEq κ]
    (mul : α → α → α) (compress : α → β) (dflt : α)
    (weights : List (κ × List α)) (conv : κ) (sh : Option κ)
    (layout : TensorLayout) (N C H W : Nat) :
    (scaleShiftPre (none : Option κ) sh ↔ sh = none)
    ∧ createWeightTensors mul compress dflt weights conv none sh layout N C H W
        = createWeightTensors mul compress dflt weights conv none none layout N C H W := by
  constructor
  · constructor
    · intro hpre
      exact hpre rfl
    · intro hsh _
      exact hsh
  · rfl

/-- Witness for C10 with a present shift name and an absent scale name. -/
theorem createWeightTensors_scaleShift_pre_witness :
    (scaleShiftPre (none : Option Nat) (some 7) ↔ (some 7 : Option Nat) = none)
    ∧ createWeightTensors (fun a b : Nat => a * b) (fun a : Nat => a + 1) 0
        [(1, [5])] 1 none (some 7) TensorLayout.Default 1 1 1 1
      = createWeightTensors (fun a b : Nat => a * b) (fun a : Nat => a + 1) 0
        [(1, [5])] 1 none none TensorLayout.Default 1 1 1 1 :=
  createWeightTensors_scaleShift_pre (fun a b : Nat => a * b) (fun a : Nat => a + 1) 0
    [(1, [5])] 1 (some 7) TensorLayout.Default 1 1 1 1

/-- Counterexample for claim C4: with the convolution layer name absent from
the weight map, CreateWeightTensors does not fail loudly: the operator[]
lookup silently yields an empty vector, the loop reads past its end (undefined
behaviour, modelled as the arbitrary default 0), and a fully formed pair of
buffers is produced: two default-valued filter entries and the two bias
entries.  The claim that a missing layer name is met with a loud fatal error
and never with a silent default run is therefore false of the code. -/
theorem createWeightTensors_missing_layer_cex :
    mapFind ([(1, [5, 5]), (2, [9, 9])] : List (Nat × List Nat)) 0 = none
    ∧ createWeightTensors (fun a b : Nat => a * b) (fun a : Nat => a + 1) 0
        [(1, [5, 5]), (2, [9, 9])] 0 (some 1) (some 2) TensorLayout.Default 2 1 1 1
      = ([1, 1], some [10, 10]) := by
  decide

/-- Amended claim C4: for a convolution layer name absent from the WeightSet
(and scale/shift omitted), CreateWeightTensors silently proceeds: it emits a
full-length filter buffer every entry of which is the compression of the
default (indeterminate) value, and reports no error of any kind. -/
theorem createWeightTensors_missing_layer_silent {α β κ : Type} [DecidableEq κ]
    (mul : α → α → α) (compress : α → β) (dflt : α)
    (weights : List (κ × List α)) (conv : κ) (layout : TensorLayout) (N C H W : Nat)
    (hconv : mapFind weights conv = none) (hCHW : C * H * W < 4294967296) :
    (createWeightTensors mul compress dflt weights conv none none layout N C H W).1.length
        = N * C * H * W
    ∧ (∀ v ∈ (createWeightTensors mul compress dflt weights conv none none layout N C H W).1,
        v = compress dflt)
    ∧ (createWeightTensors mul compress dflt weights conv none none layout N C H W).2 = none := by
  have hfw : mapGetD weights conv = [] := mapGetD_of_find_none weights conv hconv
  refine ⟨?_, ?_, rfl⟩
  · show (buildFilterFP16 mul compress dflt (mapGetD weights conv) [] false
        N C H W layout).length = N * C * H * W
    rw [hfw]
    cases layout with
    | Default =>
      rw [buildFilterFP16_default_length mul compress dflt [] [] false N C H W hCHW]
      ring
    | NHWC =>
      rw [buildFilterFP16_nhwc_length mul compress dflt [] [] false N C H W]
      ring
  · show ∀ v ∈ buildFilterFP16 mul compress dflt (mapGetD weights conv) [] false
        N C H W layout, v = compress dflt
    rw [hfw]
    intro v hv
    simp only [buildFilterFP16, List.mem_flatMap] at hv
    obtain ⟨n, _, hvb⟩ := hv
    cases layout with
    | NHWC =>
      simp only [filterBlock, List.mem_flatMap, List.mem_map] at hvb
      obtain ⟨h, _, w, _, c, _, hvv⟩ := hvb
      rw [← hvv]
      simp [weightAt]
    | Default =>
      simp only [filterBlock, List.mem_map] at hvb
      obtain ⟨i, _, hvv⟩ := hvb
      rw [← hvv]
      simp [weightAt]

/-- Witness for the amended claim C4 at a concrete map missing the key 9. -/
theorem createWeightTensors_missing_layer_silent_witness :
    (mapFind ([(5, [3])] : List (Nat × List Nat)) 9 = none ∧ 1 * 2 * 2 < 4294967296)
    ∧ ((createWeightTensors (fun a b : Nat => a * b) (fun a : Nat => a + 7) 0 [(5, [3])] 9
          none none TensorLayout.NHWC 1 1 2 2).1.length = 1 * 1 * 2 * 2
        ∧ (∀ v ∈ (createWeightTensors (fun a b : Nat => a * b) (fun a : Nat => a + 7) 0
              [(5, [3])] 9 none none TensorLayout.NHWC 1 1 2 2).1, v = (fun a : Nat => a + 7) 0)
        ∧ (createWeightTensors (fun a b : Nat => a * b) (fun a : Nat => a + 7) 0 [(5, [3])] 9
            none none TensorLayout.NHWC 1 1 2 2).2 = none) :=
  ⟨⟨by decide, by decide⟩,
    createWeightTensors_missing_layer_silent (fun a b : Nat => a * b) (fun a : Nat => a + 7) 0
      [(5, [3])] 9 TensorLayout.NHWC 1 1 2 2 (by decide) (by decide)⟩

/-- Claim C8: for valid all-positive shapes fitting uint32, the buffer element
count computed from (shape, GetStrides(shape, layout)) equals N*C*H*W under
both layouts (so both layouts imply the same buffer size), and it is
non-decreasing in each of the four dimensions. -/
theorem tensorBufferSize_layout_invariant (N C H W : Nat)
    (hN : 0 < N) (hC : 0 < C) (hH : 0 < H) (hW : 0 < W)
    (hfit : N * C * H * W < 4294967296) :
    (∀ layout, tensorBufferElemCount ⟨N, C, H, W⟩ (getStrides ⟨N, C, H, W⟩ layout)
        = N * C * H * W)
    ∧ (∀ N2 C2 H2 W2 : Nat, 0 < N2 → 0 < C2 → 0 < H2 → 0 < W2 →
        N2 * C2 * H2 * W2 < 4294967296 → N ≤ N2 → C ≤ C2 → H ≤ H2 → W ≤ W2 →
        ∀ layout, tensorBufferElemCount ⟨N, C, H, W⟩ (getStrides ⟨N, C, H, W⟩ layout)
          ≤ tensorBufferElemCount ⟨N2, C2, H2, W2⟩ (getStrides ⟨N2, C2, H2, W2⟩ layout)) := by
  have key : ∀ a b c d : Nat, 0 < a → 0 < b → 0 < c → 0 < d →
      a * b * c * d < 4294967296 →
      ∀ layout, tensorBufferElemCount ⟨a, b, c, d⟩ (getStrides ⟨a, b, c, d⟩ layout)
        = a * b * c * d := by
    intro a b c d ha hb hc hd hf layout
    have hbcd : b * c * d < 4294967296 := by
      refine Nat.lt_of_le_of_lt ?_ hf
      calc b * c * d = 1 * b * c * d := by ring
      _ ≤ a * b * c * d :=
          Nat.mul_le_mul_right d (Nat.mul_le_mul_right c (Nat.mul_le_mul_right b ha))
    cases layout with
    | Default =>
      rw [getStrides_default_eq ⟨a, b, c, d⟩ hb hbcd]
      show (a - 1) * (b * c * d) + (b - 1) * (c * d) + (c - 1) * d + (d - 1) * 1 + 1
        = a * b * c * d
      obtain ⟨a2, rfl⟩ : ∃ x, a = x + 1 := ⟨a - 1, by omega⟩
      obtain ⟨b2, rfl⟩ : ∃ x, b = x + 1 := ⟨b - 1, by omega⟩
      obtain ⟨c2, rfl⟩ : ∃ x, c = x + 1 := ⟨c - 1, by omega⟩
      obtain ⟨d2, rfl⟩ : ∃ x, d = x + 1 := ⟨d - 1, by omega⟩
      simp only [Nat.add_sub_cancel]
      ring
    | NHWC =>
      rw [getStrides_nhwc_eq ⟨a, b, c, d⟩ hc hbcd]
      show (a - 1) * (b * c * d) + (b - 1) * 1 + (c - 1) * (b * d) + (d - 1) * b + 1
        = a * b * c * d
      obtain ⟨a2, rfl⟩ : ∃ x, a = x + 1 := ⟨a - 1, by omega⟩
      obtain ⟨b2, rfl⟩ : ∃ x, b = x + 1 := ⟨b - 1, by omega⟩
      obtain ⟨c2, rfl⟩ : ∃ x, c = x + 1 := ⟨c - 1, by omega⟩
      obtain ⟨d2, rfl⟩ : ∃ x, d = x + 1 := ⟨d - 1, by omega⟩
      simp only [Nat.add_sub_cancel]
      ring
  refine ⟨key N C H W hN hC hH hW hfit, ?_⟩
  intro N2 C2 H2 W2 h1 h2 h3 h4 hf2 e1 e2 e3 e4 layout
  rw [key N C H W hN hC hH hW hfit layout, key N2 C2 H2 W2 h1 h2 h3 h4 hf2 layout]
  exact Nat.mul_le_mul (Nat.mul_le_mul (Nat.mul_le_mul e1 e2) e3) e4

/-- Witness for C8 at the shape (2, 3, 4, 5) and the larger shape (2, 3, 4, 6). -/
theorem tensorBufferSize_layout_invariant_witness :
    (0 < 2 ∧ 0 < 3 ∧ 0 < 4 ∧ 0 < 5 ∧ 2 * 3 * 4 * 5 < 4294967296)
    ∧ tensorBufferElemCount ⟨2, 3, 4, 5⟩ (getStrides ⟨2, 3, 4, 5⟩ TensorLayout.Default)
        = 2 * 3 * 4 * 5
    ∧ tensorBufferElemCount ⟨2, 3, 4, 5⟩ (getStrides ⟨2, 3, 4, 5⟩ TensorLayout.NHWC)
        = 2 * 3 * 4 * 5
    ∧ (∀ layout, tensorBufferElemCount ⟨2, 3, 4, 5⟩ (getStrides ⟨2, 3, 4, 5⟩ layout)
        ≤ tensorBufferElemCount ⟨2, 3, 4, 6⟩ (getStrides ⟨2, 3, 4, 6⟩ layout)) :=
  ⟨⟨by decide, by decide, by decide, by decide, by decide⟩,
    (tensorBufferSize_layout_invariant 2 3 4 5 (by decide) (by decide) (by decide) (by decide)
      (by decide)).1 TensorLayout.Default,
    (tensorBufferSize_layout_invariant 2 3 4 5 (by decide) (by decide) (by decide) (by decide)
      (by decide)).1 TensorLayout.NHWC,
    fun layout =>
      (tensorBufferSize_layout_invariant 2 3 4 5 (by decide) (by decide) (by decide) (by decide)
        (by decide)).2 2 3 4 6 (by decide) (by decide) (by decide) (by decide) (by decide)
        (by decide) (by decide) (by decide) (by decide) layout⟩

/-- Claim C1: with scale and shift layers present in the WeightSet, every
filter weight of output channel n is emitted as the compression (the abstract
half-precision conversion) of the source weight times scale[n], under both
layouts, and the bias buffer holds the compression of shift[n] at entry n;
with the scale/shift names absent the filter weights are emitted unfused and
no bias output is produced.  Index arithmetic is stated in the associativity
the emission lemmas produce; all index expressions equal the flat source forms
n*C*H*W + j and n*C*H*W + c*H*W + h*W + w of the code. -/
theorem createWeightTensors_fusion_spec {α β κ : Type} [DecidableEq κ]
    (mul : α → α → α) (compress : α → β) (dflt : α)
    (weights : List (κ × List α)) (conv sn tn : κ) (fwv swv twv : List α)
    (N C H W : Nat)
    (hconv : mapFind weights conv = some fwv)
    (hsn : mapFind weights sn = some swv)
    (htn : mapFind weights tn = some twv)
    (hCHW : C * H * W < 4294967296)
    (hNCHW : N * C * H * W < 4294967296) :
    (∀ n < N, ∀ j < C * H * W,
        (createWeightTensors mul compress dflt weights conv (some sn) (some tn)
            TensorLayout.Default N C H W).1[n * (C * H * W) + j]?
          = some (compress (mul (fwv.getD (n * C * H * W + j) dflt) (swv.getD n dflt))))
    ∧ (∀ n < N, ∀ h < H, ∀ w < W, ∀ c < C,
        (createWeightTensors mul compress dflt weights conv (some sn) (some tn)
            TensorLayout.NHWC N C H W).1[n * (H * (W * C)) + (h * (W * C) + (w * C + c))]?
          = some (compress (mul (fwv.getD (n * C * H * W + (c * H * W + (h * W + w))) dflt)
              (swv.getD n dflt))))
    ∧ (∀ layout, (createWeightTensors mul compress dflt weights conv (some sn) (some tn)
          layout N C H W).2
        = some ((List.range N).map fun n => compress (twv.getD n dflt)))
    ∧ (∀ n < N, ∀ j < C * H * W,
        (createWeightTensors mul compress dflt weights conv none none
            TensorLayout.Default N C H W).1[n * (C * H * W) + j]?
          = some (compress (fwv.getD (n * C * H * W + j) dflt)))
    ∧ (∀ layout,
        (createWeightTensors mul compress dflt weights conv none none layout N C H W).2
          = none) := by
  refine ⟨?_, ?_, ?_, ?_, fun _ => rfl⟩
  · intro n hn j hj
    rw [createWeightTensors_some_fst mul compress dflt weights conv sn tn
        TensorLayout.Default N C H W,
      mapGetD_of_find weights conv fwv hconv, mapGetD_of_find weights sn swv hsn,
      buildFilterFP16_default_getElem mul compress dflt fwv swv true N C H W hCHW hn hj]
    have hlt : n * C * H * W + j < 4294967296 := by
      calc n * C * H * W + j = n * (C * H * W) + j := by ring
      _ < N * (C * H * W) := flatIndexLt hn hj
      _ = N * C * H * W := by ring
      _ < 4294967296 := hNCHW
    rw [Nat.mod_eq_of_lt hlt]
    rfl
  · intro n hn h hh w hw c hc
    rw [createWeightTensors_some_fst mul compress dflt weights conv sn tn
        TensorLayout.NHWC N C H W,
      mapGetD_of_find weights conv fwv hconv, mapGetD_of_find weights sn swv hsn,
      buildFilterFP16_nhwc_getElem mul compress dflt fwv swv true N C H W hn hh hw hc]
    have hlt : n * C * H * W + (c * H * W + (h * W + w)) < 4294967296 := by
      calc n * C * H * W + (c * H * W + (h * W + w))
          = n * (C * (H * W)) + (c * (H * W) + (h * W + w)) := by ring
      _ < N * (C * (H * W)) := flatIndexLt hn (flatIndexLt hc (flatIndexLt hh hw))
      _ = N * C * H * W := by ring
      _ < 4294967296 := hNCHW
    rw [Nat.mod_eq_of_lt hlt]
    rfl
  · intro layout
    rw [createWeightTensors_some_snd mul compress dflt weights conv sn tn layout N C H W,
      mapGetD_of_find weights tn twv htn, buildBiasFP16_true]
  · intro n hn j hj
    have hfst : (createWeightTensors mul compress dflt weights conv none none
        TensorLayout.Default N C H W).1
        = buildFilterFP16 mul compress dflt (mapGetD weights conv) [] false
            N C H W TensorLayout.Default := rfl
    rw [hfst, mapGetD_of_find weights conv fwv hconv,
      buildFilterFP16_default_getElem mul compress dflt fwv [] false N C H W hCHW hn hj]
    have hlt : n * C * H * W + j < 4294967296 := by
      calc n * C * H * W + j = n * (C * H * W) + j := by ring
      _ < N * (C * H * W) := flatIndexLt hn hj
      _ = N * C * H * W := by ring
      _ < 4294967296 := hNCHW
    rw [Nat.mod_eq_of_lt hlt]
    rfl

/-- Witness for C1: a two-channel 1x1x1 filter with scale (5, 7) and shift
(11, 13); the fused output is ((2*5, 3*7) compressed, bias (11, 13)
compressed), with compression instantiated as adding 1000. -/
theorem createWeightTensors_fusion_spec_witness :
    (mapFind ([(0, [2, 3]), (1, [5, 7]), (2, [11, 13])] : List (Nat × List Nat)) 0
        = some [2, 3]
      ∧ mapFind ([(0, [2, 3]), (1, [5, 7]), (2, [11, 13])] : List (Nat × List Nat)) 1
        = some [5, 7]
      ∧ mapFind ([(0, [2, 3]), (1, [5, 7]), (2, [11, 13])] : List (Nat × List Nat)) 2
        = some [11, 13]
      ∧ 1 * 1 * 1 < 4294967296 ∧ 2 * 1 * 1 * 1 < 4294967296)
    ∧ createWeightTensors (fun a b : Nat => a * b) (fun a : Nat => a + 1000) 0
        [(0, [2, 3]), (1, [5, 7]), (2, [11, 13])] 0 (some 1) (some 2)
        TensorLayout.Default 2 1 1 1
      = ([1010, 1021], some [1011, 1013])
    ∧ (∀ n < 2, ∀ j < 1 * 1 * 1,
        (createWeightTensors (fun a b : Nat => a * b) (fun a : Nat => a + 1000) 0
            [(0, [2, 3]), (1, [5, 7]), (2, [11, 13])] 0 (some 1) (some 2)
            TensorLayout.Default 2 1 1 1).1[n * (1 * 1 * 1) + j]?
          = some ((fun a : Nat => a + 1000)
              ((fun a b : Nat => a * b) (([2, 3] : List Nat).getD (n * 1 * 1 * 1 + j) 0)
                (([5, 7] : List Nat).getD n 0)))) :=
  ⟨⟨by decide, by decide, by decide, by decide, by decide⟩, by decide,
    (createWeightTensors_fusion_spec (fun a b : Nat => a * b) (fun a : Nat => a + 1000) 0
      [(0, [2, 3]), (1, [5, 7]), (2, [11, 13])] 0 1 2 [2, 3] [5, 7] [11, 13] 2 1 1 1
      (by decide) (by decide) (by decide) (by decide) (by decide)).1⟩

/-- Claim C3: for every filter shape, the NHWC filter sequence is a pure
permutation of the Default-layout sequence: both have length N*C*H*W, they are
List.Perm related (no value lost or duplicated), and the entry at the NHWC
position of (n, h, w, c) equals the Default-sequence entry at position
n*C*H*W + c*H*W + h*W + w (positions written in the associativity the emission
lemmas produce). -/
theorem createWeightTensors_layout_perm {α β κ : Type} [DecidableEq κ]
    (mul : α → α → α) (compress : α → β) (dflt : α)
    (weights : List (κ × List α)) (conv : κ) (scaleName shiftName : Option κ)
    (N C H W : Nat) (hCHW : C * H * W < 4294967296) :
    (createWeightTensors mul compress dflt weights conv scaleName shiftName
        TensorLayout.NHWC N C H W).1.length = N * C * H * W
    ∧ (createWeightTensors mul compress dflt weights conv scaleName shiftName
        TensorLayout.Default N C H W).1.length = N * C * H * W
    ∧ List.Perm
        (createWeightTensors mul compress dflt weights conv scaleName shiftName
          TensorLayout.NHWC N C H W).1
        (createWeightTensors mul compress dflt weights conv scaleName shiftName
          TensorLayout.Default N C H W).1
    ∧ (∀ n < N, ∀ h < H, ∀ w < W, ∀ c < C,
        (createWeightTensors mul compress dflt weights conv scaleName shiftName
            TensorLayout.NHWC N C H W).1[n * (H * (W * C)) + (h * (W * C) + (w * C + c))]?
          = (createWeightTensors mul compress dflt weights conv scaleName shiftName
              TensorLayout.Default N C H W).1[n * (C * H * W) + (c * H * W + (h * W + w))]?) := by
  refine ⟨?_, ?_, ?_, ?_⟩
  · rw [createWeightTensors_fst mul compress dflt weights conv scaleName shiftName
        TensorLayout.NHWC N C H W, buildFilterFP16_nhwc_length]
    ring
  · rw [createWeightTensors_fst mul compress dflt weights conv scaleName shiftName
        TensorLayout.Default N C H W,
      buildFilterFP16_default_length _ _ _ _ _ _ N C H W hCHW]
    ring
  · rw [createWeightTensors_fst mul compress dflt weights conv scaleName shiftName
        TensorLayout.NHWC N C H W,
      createWeightTensors_fst mul compress dflt weights conv scaleName shiftName
        TensorLayout.Default N C H W]
    exact buildFilterFP16_perm _ _ _ _ _ _ N C H W hCHW
  · intro n hn h hh w hw c hc
    rw [createWeightTensors_fst mul compress dflt weights conv scaleName shiftName
        TensorLayout.NHWC N C H W,
      createWeightTensors_fst mul compress dflt weights conv scaleName shiftName
        TensorLayout.Default N C H W,
      buildFilterFP16_nhwc_getElem _ _ _ _ _ _ N C H W hn hh hw hc]
    have hj : c * H * W + (h * W + w) < C * H * W := by
      calc c * H * W + (h * W + w) = c * (H * W) + (h * W + w) := by ring
      _ < C * (H * W) := flatIndexLt hc (flatIndexLt hh hw)
      _ = C * H * W := by ring
    rw [buildFilterFP16_default_getElem _ _ _ _ _ _ N C H W hCHW hn hj]

/-- Witness for C3 at the shape (1, 2, 1, 2): the Default emission is
(4, 5, 6, 7) compressed in source order while the NHWC emission interleaves
the two channels, a genuine permutation. -/
theorem createWeightTensors_layout_perm_witness :
    (2 * 1 * 2 < 4294967296)
    ∧ (createWeightTensors (fun a b : Nat => a * b) (fun a : Nat => a + 1) 0
        [(0, [4, 5, 6, 7])] 0 none none TensorLayout.NHWC 1 2 1 2).1 = [5, 7, 6, 8]
    ∧ (createWeightTensors (fun a b : Nat => a * b) (fun a : Nat => a + 1) 0
        [(0, [4, 5, 6, 7])] 0 none none TensorLayout.Default 1 2 1 2).1 = [5, 6, 7, 8]
    ∧ List.Perm
        (createWeightTensors (fun a b : Nat => a * b) (fun a : Nat => a + 1) 0
          [(0, [4, 5, 6, 7])] 0 none none TensorLayout.NHWC 1 2 1 2).1
        (createWeightTensors (fun a b : Nat => a * b) (fun a : Nat => a + 1) 0
          [(0, [4, 5, 6, 7])] 0 none none TensorLayout.Default 1 2 1 2).1 :=
  ⟨by decide, by decide, by decide,
    (createWeightTensors_layout_perm (fun a b : Nat => a * b) (fun a : Nat => a + 1) 0
      [(0, [4, 5, 6, 7])] 0 none none 1 2 1 2 (by decide)).2.2.1⟩
